import Mathlib

/-!
# Verification of the OpenSeeFace input reader (`input_reader.py`)

This file gives a shallow embedding of the backend-selection logic of
`input_reader.py` and proves properties of it:

* `test_reader`, the liveness probe (lines 126-146 of the source), is embedded
  as a function over a `ProbeReader` describing the results of the external
  calls the probe makes (`is_ready`, `read`, and the final `is_open`, each of
  which may raise);
* `RawReader` (lines 94-118): geometry validation at construction and the
  byte-accumulation loop of `read`, with the stream of chunk results returned
  by the underlying `sys.stdin.buffer.read` calls made explicit;
* the capture-specifier classification chain of `InputReader.__init__`
  (lines 152-156), including a model of Python's `int(str)` parsing used by
  `try_int` (lines 120-124);
* the full fallback state machine of `InputReader.__init__` (lines 148-203),
  with the behaviour of the external backends (DShowCapture, escapi, OpenCV)
  supplied by an environment `SelEnv`, and the readers that get instantiated
  recorded as a list of `Event`s.

The model is single-threaded: the state of an external device is observed
through the calls the code makes and does not change between calls that do not
touch the device.  Per the capability contract of the sources, `is_open` of a
selected reader is modelled as a value rather than a raising call.
-/

namespace OSF

/-- Result of one external call made by the probe: either the call raised an
exception, or it returned the given boolean. -/
inductive Step
  | raises
  | val (b : Bool)
  deriving DecidableEq

/-- The observable behaviour of a candidate reader during `test_reader`:
the result of the `is_ready()` call of iteration `i`, the success flag of the
`read()` call of iteration `i`, and the result of the final `is_open()` call
after the loop. -/
structure ProbeReader where
  ready : Nat → Step
  readRes : Nat → Step
  openEnd : Step

/-- The loop of `test_reader` (source lines 129-138): `fuel` iterations remain,
`i` is the current loop index, `gotAny` is the accumulator `got_any`.  An
exception anywhere is caught by the bare `except` of `test_reader` and turns
into a `false` result; sleeps and prints are ignored. -/
def testReaderAux (r : ProbeReader) : Nat → Nat → Bool → Bool
  | 0, _, gotAny =>
    match r.openEnd with
    | Step.raises => false
    | Step.val b => b && gotAny
  | fuel + 1, i, gotAny =>
    match r.ready i with
    | Step.raises => false
    | Step.val _ =>
      match r.readRes i with
      | Step.raises => false
      | Step.val ret => testReaderAux r fuel (i + 1) (gotAny || ret)

/-- `test_reader` (source lines 126-146): 30 read attempts, then the reader is
accepted only if `is_open()` holds and the accumulated `got_any` is true. -/
def test_reader (r : ProbeReader) : Bool :=
  testReaderAux r 30 0 false

/-- No call made by the probe in iterations `[i, k)` raises. -/
def noRaiseUpTo (r : ProbeReader) (i k : Nat) : Prop :=
  ∀ j, i ≤ j → j < k → r.ready j ≠ Step.raises ∧ r.readRes j ≠ Step.raises

/-! ## The raw RGB reader (`RawReader`, source lines 94-118) -/

/-- State of a constructed `RawReader`: the validated geometry and the `open`
flag (set to `True` by the constructor, cleared by `close`). -/
structure RawReaderState where
  width : Nat
  height : Nat
  opened : Bool
  deriving DecidableEq

/-- `RawReader.__init__` (source lines 95-104): geometry strictly below 1 in
either dimension prints a message and calls `sys.exit(0)` (modelled as
`none`); otherwise the reader is constructed with `open = True`. -/
def RawReader.init (width height : Int) : Option RawReaderState :=
  if width < 1 ∨ height < 1 then none
  else some ⟨width.toNat, height.toNat, true⟩

/-- `RawReader.is_open` (source lines 105-106). -/
def RawReader.is_open (s : RawReaderState) : Bool := s.opened

/-- The accumulation loop of `RawReader.read` (source lines 110-115).
`chunks` is the sequence of byte strings returned by the successive
`sys.stdin.buffer.read(self.len)` calls; `frame` and `readBytes` are the
`frame` buffer and the `read_bytes` counter.  If the stream is exhausted while
`read_bytes < len`, the Python code blocks forever on the next read, modelled
as `none`. -/
def rawReadLoop (len : Nat) : List (List Nat) → List Nat → Nat → Option (List Nat)
  | [], frame, readBytes =>
    if readBytes < len then none else some frame
  | c :: rest, frame, readBytes =>
    if readBytes < len then rawReadLoop len rest (frame ++ c) (readBytes + c.length)
    else some frame

/-- Split a list into `n` consecutive groups of `k` elements (the reshape of a
flat byte buffer along one axis). -/
def splitInto {α : Type} : Nat → Nat → List α → List (List α)
  | 0, _, _ => []
  | n + 1, k, xs => xs.take k :: splitInto n k (xs.drop k)

/-- The `(height, width, 3)` reshape of a flat byte buffer: `h` rows of `w`
pixels of 3 channel bytes. -/
def reshapeFrame (h w : Nat) (bytes : List Nat) : List (List (List Nat)) :=
  (splitInto h (w * 3) bytes).map (splitInto w 3)

/-- `np.frombuffer(frame).reshape((h, w, 3))` (source line 116): succeeds only
when the buffer holds exactly `h*w*3` bytes, otherwise numpy raises. -/
def reshape3 (h w : Nat) (bytes : List Nat) : Option (List (List (List Nat))) :=
  if bytes.length = h * w * 3 then some (reshapeFrame h w bytes) else none

/-- Result of a `RawReader.read` call. -/
inductive RawReadResult
  | blocked
  | reshapeErr
  | frame (f : List (List (List Nat)))
  deriving DecidableEq

/-- `RawReader.read` (source lines 109-116): accumulate chunks until
`read_bytes` reaches `width*height*3`, then reshape to `(height, width, 3)`
and return it with a `True` success flag. -/
def RawReader.read (s : RawReaderState) (chunks : List (List Nat)) : RawReadResult :=
  match rawReadLoop (s.width * s.height * 3) chunks [] 0 with
  | none => RawReadResult.blocked
  | some frame =>
    match reshape3 s.height s.width frame with
    | none => RawReadResult.reshapeErr
    | some f => RawReadResult.frame f

/-! ## `try_int` and the capture-specifier classification (source lines 120-124
and 152-156) -/

/-- Whitespace stripped by Python's `int(str)` before parsing. -/
def isPySpace (c : Char) : Bool :=
  c == ' ' || c == '\t' || c == '\n' || c == '\r' ||
    c == Char.ofNat 11 || c == Char.ofNat 12

/-- Numeric value of an ASCII digit. -/
def digitVal (c : Char) : Nat := c.toNat - 48

/-- Continuation of Python base-10 digit parsing after the first digit:
single underscores may occur between digits (`prevU` records whether the
previous character was an underscore), and the string may not end in an
underscore. -/
def parseTail : Bool → List Char → Nat → Option Nat
  | prevU, [], acc => if prevU then none else some acc
  | prevU, c :: rest, acc =>
    if c == '_' then
      if prevU then none else parseTail true rest acc
    else if c.isDigit then parseTail false rest (acc * 10 + digitVal c)
    else none

/-- A nonempty base-10 digit string (with Python's underscore rule), starting
with a digit. -/
def parseDigits : List Char → Option Nat
  | [] => none
  | c :: rest => if c.isDigit then parseTail false rest (digitVal c) else none

/-- Strip leading and trailing Python whitespace. -/
def stripPySpaces (l : List Char) : List Char :=
  ((l.dropWhile isPySpace).reverse.dropWhile isPySpace).reverse

/-- Python's `int(s)` for a string argument (base 10, ASCII): optional
surrounding whitespace, optional sign, then a nonempty digit string with
single underscores allowed between digits.  `none` models a raised
`ValueError`. -/
def pythonInt (s : String) : Option Int :=
  match stripPySpaces s.data with
  | '-' :: rest => (parseDigits rest).map (fun n => -(n : Int))
  | '+' :: rest => (parseDigits rest).map (fun n => (n : Int))
  | l => (parseDigits l).map (fun n => (n : Int))

/-- `try_int` (source lines 120-124): `int(s)`, with any exception turned into
`None`. -/
def try_int (s : String) : Option Int := pythonInt s

/-- Python's `str()` applied to the result of `try_int`: the canonical decimal
rendering of an int, or the literal `"None"`.  This is the right-hand side of
the comparison `capture == str(try_int(capture))` on source line 156. -/
def pyStr : Option Int → String
  | some n => toString n
  | none => "None"

/-- The four ways `InputReader.__init__` can classify the capture specifier
(the branch structure of source lines 152-156). -/
inductive Classification
  | rawMode
  | filePath
  | deviceIndex
  | invalid
  deriving DecidableEq

/-- The classification chain of `InputReader.__init__` (source lines 152-156):
`raw_rgb > 0` wins; else an existing path (`pe` is `os.path.exists`); else the
specifier must equal `str(try_int(specifier))`; else no branch assigns a
reader. -/
def classify (pe : String → Bool) (raw_rgb : Int) (capture : String) : Classification :=
  if 0 < raw_rgb then Classification.rawMode
  else if pe capture then Classification.filePath
  else if capture = pyStr (try_int capture) then Classification.deviceIndex
  else Classification.invalid

/-! ## The escapi reader (`EscapiReader`, source lines 29-50) -/

/-- The fields set by `EscapiReader.__init__`. -/
structure EscapiReaderState where
  device : Nat
  width : Int
  height : Int
  fps : Int

/-- `EscapiReader.is_open` (source lines 38-39): literally `return True`,
whatever the state of the reader. -/
def EscapiReader.is_open (_ : EscapiReaderState) : Bool := true

/-- What an `EscapiReader` shows to the probe: `is_ready` is
`escapi.is_capture_done` and `read` polls the outstanding capture, either of
which may raise; `is_open` is the constant `True` of lines 38-39. -/
structure EscapiBehavior where
  ready : Nat → Step
  readRes : Nat → Step

/-- The `ProbeReader` view of an `EscapiReader`: the final `is_open()` call
returns `True` unconditionally. -/
def EscapiBehavior.toProbe (b : EscapiBehavior) : ProbeReader :=
  ⟨b.ready, b.readRes, Step.val true⟩

/-! ## The DShowCapture reader (`DShowCaptureReader`, source lines 52-74) -/

/-- The behaviour of a successfully constructed `DShowCaptureReader`: the
resolved `device_name` (source line 60), the results of the `get_frame` polls,
and the value of `device.capturing()`, which both `is_open` and `is_ready`
return (lines 63-66).  The device state is observed only through these calls;
no selector operation after construction mutates it, so `capturing` is a
single value. -/
structure DShowDev where
  name : String
  readRes : Nat → Step
  capturing : Bool

/-- The `ProbeReader` view of a `DShowCaptureReader`: both the per-iteration
`is_ready()` and the final `is_open()` return `device.capturing()`. -/
def DShowDev.probe (d : DShowDev) : ProbeReader :=
  ⟨fun _ => Step.val d.capturing, d.readRes, Step.val d.capturing⟩

/-! ## The selector (`InputReader.__init__`, source lines 148-203) -/

/-- Outcome of constructing a `VideoReader` or `OpenCVReader`: the constructor
may raise an exception (caught by the `except Exception` of line 198), may hit
the `sys.exit(0)` of line 19 (which `except Exception` does not catch), or
returns a reader whose `is_open()` value is `isOpen`. -/
inductive CtorOutcome
  | raises
  | fatalExit
  | ok (isOpen : Bool)
  deriving DecidableEq

/-- The behaviour of everything external to the selector: the platform check
`os.name == 'nt'`, `os.path.exists`, and the outcomes of constructing,
enumerating and probing each backend. `escapiEnum` is the device-name list
produced by `escapi.init()` / `count_capture_devices()` / `device_name(i)`
(`none` when any of those raises); `dshowCtor` and `escapiCtor` are `none`
when the respective constructor raises. -/
structure SelEnv where
  osIsNt : Bool
  pathExists : String → Bool
  videoCtor : CtorOutcome
  dshowCtor : Option DShowDev
  escapiEnum : Option (List String)
  escapiCtor : Option EscapiBehavior
  opencvCtor : CtorOutcome

/-- The concrete reader instance held in `self.reader`, with the data needed
to evaluate its `is_open()`. -/
inductive RReader
  | raw (s : RawReaderState)
  | video (isOpen : Bool)
  | dshow (name : String) (capturing : Bool)
  | escapi (idx : Nat)
  | opencv (isOpen : Bool)
  deriving DecidableEq

/-- `is_open()` of the selected reader: `RawReader` returns its `open` flag,
`VideoReader`/`OpenCVReader` ask the capture handle, `DShowCaptureReader`
returns `device.capturing()`, and `EscapiReader` returns `True`
unconditionally (source lines 38-39). -/
def RReader.is_open : RReader → Bool
  | RReader.raw s => s.opened
  | RReader.video b => b
  | RReader.dshow _ c => c
  | RReader.escapi _ => true
  | RReader.opencv b => b

/-- Reader instantiations performed during selection, in order.  An event is
recorded when the constructor call is entered, whether or not it raises. -/
inductive Event
  | rawInst
  | videoInst
  | dshowInst
  | escapiInst
  | opencvInst
  deriving DecidableEq

/-- How `InputReader.__init__` can end: the fatal `sys.exit(0)` paths, a
normal return holding a reader, or an exception escaping the constructor.
The body of lines 151-199 sits inside `try ... except Exception`, so no
selection-time exception can produce `uncaught`; the variant exists so that
this is a statement about the model rather than a typing accident. -/
inductive SelOutcome
  | fatal
  | ok (r : RReader)
  | uncaught
  deriving DecidableEq

/-- The final guard of `InputReader.__init__` (source lines 201-203):
`sys.exit(0)` when no reader was assigned or the assigned reader is not open. -/
def finalCheck : Option RReader → SelOutcome
  | none => SelOutcome.fatal
  | some r => if RReader.is_open r then SelOutcome.ok r else SelOutcome.fatal

/-- The last fallback step (source lines 193-195, or 197 off-Windows) followed
by the final guard.  `prev` is the reader currently in `self.reader`, kept
when the `OpenCVReader` constructor raises (the assignment never happens) and
control reaches line 201 through the handler of line 198.  `intOk` is false
when the specifier was classified as a device index without parsing as an int
(specifier `"None"`), in which case `int(capture)` on line 195 raises before
`OpenCVReader` is entered. -/
def opencvFinish (env : SelEnv) (prev : Option RReader) (evs : List Event)
    (intOk : Bool) : SelOutcome × List Event :=
  if intOk then
    match env.opencvCtor with
    | CtorOutcome.raises => (finalCheck prev, evs ++ [Event.opencvInst])
    | CtorOutcome.fatalExit => (SelOutcome.fatal, evs ++ [Event.opencvInst])
    | CtorOutcome.ok b => (finalCheck (some (RReader.opencv b)), evs ++ [Event.opencvInst])
  else (finalCheck prev, evs)

/-- The `for i in range(devices)` loop of source lines 179-182: `found` keeps
the index of the *last* device whose name equals `nm`. -/
def findLastFrom (nm : String) : List String → Nat → Option Nat → Option Nat
  | [], _, acc => acc
  | n :: rest, i, acc => findLastFrom nm rest (i + 1) (if n = nm then some i else acc)

/-- Index of the last occurrence of `nm` in `names`, if any. -/
def findLast (nm : String) (names : List String) : Option Nat :=
  findLastFrom nm names 0 none

/-- The escapi attempt (source lines 172-192) followed by the OpenCV fallback.
`nm` is the device name resolved by the DShowCapture attempt (or `""`).  Any
exception in the block — enumeration or the `EscapiReader` constructor — is
caught by the bare `except` of line 189 and sets `good = False`; a probe
success returns immediately (line 191-192) without the final open check. -/
def afterDshow (env : SelEnv) (nm : String) (prev : Option RReader)
    (evs : List Event) (intOk : Bool) : SelOutcome × List Event :=
  match env.escapiEnum with
  | none => opencvFinish env prev evs intOk
  | some names =>
    match findLast nm names with
    | none => opencvFinish env prev evs intOk
    | some i =>
      match env.escapiCtor with
      | none => opencvFinish env prev (evs ++ [Event.escapiInst]) intOk
      | some b =>
        if test_reader (EscapiBehavior.toProbe b) then
          (SelOutcome.ok (RReader.escapi i), evs ++ [Event.escapiInst])
        else opencvFinish env (some (RReader.escapi i)) (evs ++ [Event.escapiInst]) intOk

/-- The Windows device-index path (source lines 157-195): the DShowCapture
attempt (only when `use_dshowcapture`, lines 162-167), whose constructor
exceptions are caught by line 168, returning immediately on probe success
(lines 170-171), else falling through to the escapi attempt with the resolved
name (or `""` when the constructor raised or the backend was disabled). -/
def ntIndexPath (env : SelEnv) (ud : Bool) : SelOutcome × List Event :=
  if ud then
    match env.dshowCtor with
    | some d =>
      if test_reader (DShowDev.probe d) then
        (SelOutcome.ok (RReader.dshow d.name d.capturing), [Event.dshowInst])
      else afterDshow env d.name (some (RReader.dshow d.name d.capturing))
        [Event.dshowInst] true
    | none => afterDshow env "" none [Event.dshowInst] true
  else afterDshow env "" none [] true

/-- `InputReader.__init__` (source lines 148-203).  `ud` is
`use_dshowcapture`.  `width` and `height` are the geometry handed to the
backends; only the raw path inspects them, the live backends absorb them into
`env`.  The device-index branch evaluates `int(capture)`: when the specifier
is `"None"` (classified as an index by line 156 although `try_int` returned
`None`), that call raises — inside the inner `try` on Windows (before
`DShowCaptureReader` is entered), or caught by the handler of line 198 on
other platforms. -/
def InputReader.init (env : SelEnv) (capture : String) (raw_rgb : Int)
    (width height : Int) (ud : Bool) : SelOutcome × List Event :=
  match classify env.pathExists raw_rgb capture with
  | Classification.rawMode =>
    match RawReader.init width height with
    | none => (SelOutcome.fatal, [Event.rawInst])
    | some s => (finalCheck (some (RReader.raw s)), [Event.rawInst])
  | Classification.filePath =>
    match env.videoCtor with
    | CtorOutcome.raises => (SelOutcome.fatal, [Event.videoInst])
    | CtorOutcome.fatalExit => (SelOutcome.fatal, [Event.videoInst])
    | CtorOutcome.ok b => (finalCheck (some (RReader.video b)), [Event.videoInst])
  | Classification.deviceIndex =>
    match try_int capture with
    | some _ =>
      if env.osIsNt then ntIndexPath env ud
      else
        match env.opencvCtor with
        | CtorOutcome.raises => (SelOutcome.fatal, [Event.opencvInst])
        | CtorOutcome.fatalExit => (SelOutcome.fatal, [Event.opencvInst])
        | CtorOutcome.ok b => (finalCheck (some (RReader.opencv b)), [Event.opencvInst])
    | none =>
      if env.osIsNt then afterDshow env "" none [] false
      else (SelOutcome.fatal, [])
  | Classification.invalid => (SelOutcome.fatal, [])

/-- The device name the DShowCapture attempt leaves in `name` (source lines
160-164): the resolved `device_name` on constructor success, `""` when the
backend is disabled or the constructor raised. -/
def resolvedName (env : SelEnv) (ud : Bool) : String :=
  if ud then
    match env.dshowCtor with
    | some d => d.name
    | none => ""
  else ""

/-- The reader left in `self.reader` by a failed DShowCapture attempt. -/
def dshowPrev (env : SelEnv) (ud : Bool) : Option RReader :=
  if ud then
    match env.dshowCtor with
    | some d => some (RReader.dshow d.name d.capturing)
    | none => none
  else none

/-- The instantiation events of the DShowCapture attempt. -/
def dshowEvs (ud : Bool) : List Event :=
  if ud then [Event.dshowInst] else []

/-- The DShowCapture attempt did not commit: disabled, constructor raised, or
probe failed. -/
def dshowFailed (env : SelEnv) (ud : Bool) : Prop :=
  ud = false ∨ env.dshowCtor = none ∨
    ∃ d, env.dshowCtor = some d ∧ test_reader (DShowDev.probe d) = false

/-! ## Characterization of the liveness probe -/

/-- Complete characterization of the probe loop: starting at iteration `i`
with `fuel` iterations left and accumulator `g`, the probe returns `true`
exactly when no remaining call raises, the final `is_open()` returns `true`,
and either `g` is already set or some remaining `read` succeeds. -/
lemma testReaderAux_true_iff (r : ProbeReader) :
    ∀ (fuel i : Nat) (g : Bool),
      testReaderAux r fuel i g = true ↔
        (noRaiseUpTo r i (i + fuel) ∧ r.openEnd = Step.val true ∧
          (g = true ∨ ∃ j, i ≤ j ∧ j < i + fuel ∧ r.readRes j = Step.val true)) := by
  intro fuel
  induction fuel with
  | zero =>
    intro i g
    constructor
    · intro h
      simp only [testReaderAux] at h
      cases hop : r.openEnd with
      | raises => rw [hop] at h; cases h
      | val b =>
        rw [hop] at h
        simp at h
        obtain ⟨hb, hg⟩ := h
        subst hb
        exact ⟨fun j h1 h2 => absurd h2 (by omega), rfl, Or.inl hg⟩
    · rintro ⟨-, hop, hany⟩
      have hg : g = true := by
        rcases hany with hg | ⟨j, h1, h2, -⟩
        · exact hg
        · omega
      simp [testReaderAux, hop, hg]
  | succ fuel ih =>
    intro i g
    cases hr : r.ready i with
    | raises =>
      simp only [testReaderAux, hr]
      constructor
      · intro h; exact absurd h (by simp)
      · rintro ⟨hnr, -, -⟩
        exact absurd hr (hnr i (le_refl i) (by omega)).1
    | val rdy =>
      cases hv : r.readRes i with
      | raises =>
        simp only [testReaderAux, hr, hv]
        constructor
        · intro h; exact absurd h (by simp)
        · rintro ⟨hnr, -, -⟩
          exact absurd hv (hnr i (le_refl i) (by omega)).2
      | val ret =>
        have hstep : testReaderAux r (fuel + 1) i g = testReaderAux r fuel (i + 1) (g || ret) := by
          simp [testReaderAux, hr, hv]
        rw [hstep, ih (i + 1) (g || ret)]
        constructor
        · rintro ⟨hnr, hop, hany⟩
          refine ⟨?_, hop, ?_⟩
          · intro j h1 h2
            rcases Nat.eq_or_lt_of_le h1 with heq | hlt
            · subst heq; exact ⟨by simp [hr], by simp [hv]⟩
            · exact hnr j (by omega) (by omega)
          · rcases hany with hg | ⟨j, h1, h2, h3⟩
            · rcases Bool.or_eq_true_iff.mp hg with hg' | hret
              · exact Or.inl hg'
              · subst hret
                exact Or.inr ⟨i, le_refl i, by omega, hv⟩
            · exact Or.inr ⟨j, by omega, by omega, h3⟩
        · rintro ⟨hnr, hop, hany⟩
          refine ⟨fun j h1 h2 => hnr j (by omega) (by omega), hop, ?_⟩
          rcases hany with hg | ⟨j, h1, h2, h3⟩
          · exact Or.inl (by simp [hg])
          · by_cases hji : j = i
            · subst hji
              rw [hv] at h3
              cases h3
              exact Or.inl (by simp)
            · exact Or.inr ⟨j, by omega, by omega, h3⟩

/-- `test_reader` succeeds exactly when no call of the 30 iterations raises,
the final `is_open()` returns `true`, and at least one `read` succeeded. -/
lemma test_reader_true_iff (r : ProbeReader) :
    test_reader r = true ↔
      (noRaiseUpTo r 0 30 ∧ r.openEnd = Step.val true ∧
        ∃ j, j < 30 ∧ r.readRes j = Step.val true) := by
  have h := testReaderAux_true_iff r 30 0 false
  simp only [test_reader] at h ⊢
  rw [h]
  constructor
  · rintro ⟨hnr, hop, hany⟩
    rcases hany with hg | ⟨j, -, h2, h3⟩
    · cases hg
    · exact ⟨hnr, hop, j, by omega, h3⟩
  · rintro ⟨hnr, hop, j, h2, h3⟩
    exact ⟨hnr, hop, Or.inr ⟨j, by omega, by omega, h3⟩⟩

/-! ## The raw reader: loop completion and reshape lemmas -/

lemma rawReadLoop_complete (len : Nat) :
    ∀ (chunks : List (List Nat)) (frame : List Nat),
      frame.length + chunks.flatten.length = len →
      rawReadLoop len chunks frame frame.length = some (frame ++ chunks.flatten) := by
  intro chunks
  induction chunks with
  | nil =>
    intro frame h
    simp only [List.flatten_nil, List.length_nil] at h
    simp [rawReadLoop]
    omega
  | cons c rest ih =>
    intro frame h
    simp only [List.flatten_cons, List.length_append] at h
    by_cases hlt : frame.length < len
    · have hlen : (frame ++ c).length + rest.flatten.length = len := by
        simp only [List.length_append]; omega
      have hrec := ih (frame ++ c) hlen
      simp only [rawReadLoop, if_pos hlt]
      rw [show frame.length + c.length = (frame ++ c).length by simp]
      rw [hrec]
      simp [List.flatten_cons]
    · have hc : c = [] := List.length_eq_zero.mp (by omega)
      have hrest : rest.flatten = [] := List.length_eq_zero.mp (by omega)
      simp only [rawReadLoop, if_neg hlt]
      simp [List.flatten_cons, hc, hrest]

lemma splitInto_length {α : Type} (k : Nat) :
    ∀ (n : Nat) (xs : List α), (splitInto n k xs).length = n := by
  intro n
  induction n with
  | zero => intro xs; simp [splitInto]
  | succ n ih => intro xs; simp [splitInto, ih]

lemma splitInto_flatten {α : Type} (k : Nat) :
    ∀ (n : Nat) (xs : List α), xs.length = n * k → (splitInto n k xs).flatten = xs := by
  intro n
  induction n with
  | zero =>
    intro xs h
    simp only [Nat.zero_mul] at h
    rw [List.length_eq_zero.mp h]
    simp [splitInto]
  | succ n ih =>
    intro xs h
    have hlen : (xs.drop k).length = n * k := by
      rw [List.length_drop, h, Nat.succ_mul, Nat.add_sub_cancel]
    simp only [splitInto, List.flatten_cons, ih (xs.drop k) hlen, List.take_append_drop]

lemma splitInto_mem_length {α : Type} (k : Nat) :
    ∀ (n : Nat) (xs : List α), xs.length = n * k →
      ∀ l ∈ splitInto n k xs, l.length = k := by
  intro n
  induction n with
  | zero => intro xs h l hl; simp [splitInto] at hl
  | succ n ih =>
    intro xs h l hl
    simp only [splitInto, List.mem_cons] at hl
    rcases hl with hl | hl
    · subst hl
      rw [List.length_take]
      have hk : k ≤ xs.length := by rw [h, Nat.succ_mul]; omega
      omega
    · have hlen : (xs.drop k).length = n * k := by
        rw [List.length_drop, h, Nat.succ_mul, Nat.add_sub_cancel]
      exact ih (xs.drop k) hlen l hl

lemma flatten_map_flatten {α : Type} (g : List α → List (List α)) :
    ∀ (L : List (List α)), (∀ c ∈ L, (g c).flatten = c) →
      ((L.map g).flatten).flatten = L.flatten := by
  intro L
  induction L with
  | nil => intro _; simp
  | cons c rest ih =>
    intro hg
    simp only [List.map_cons, List.flatten_cons, List.flatten_append]
    rw [hg c (List.mem_cons_self c rest), ih (fun x hx => hg x (List.mem_cons_of_mem c hx))]


/-- Claim C3: for every valid raw geometry (width, height at least 1) and any
chunking of exactly `width*height*3` bytes delivered by the stream,
`RawReader.read` returns success with one frame of shape (height, width, 3)
whose bytes are exactly the delivered bytes, regardless of the chunk sizes. -/
theorem rawRead_assembles (s : RawReaderState) (_hw : 1 ≤ s.width) (_hh : 1 ≤ s.height)
    (chunks : List (List Nat)) (hlen : chunks.flatten.length = s.width * s.height * 3) :
    RawReader.read s chunks =
        RawReadResult.frame (reshapeFrame s.height s.width chunks.flatten) ∧
    (reshapeFrame s.height s.width chunks.flatten).flatten.flatten = chunks.flatten ∧
    (reshapeFrame s.height s.width chunks.flatten).length = s.height ∧
    ∀ row ∈ reshapeFrame s.height s.width chunks.flatten,
      row.length = s.width ∧ ∀ px ∈ row, px.length = 3 := by
  have hlen2 : chunks.flatten.length = s.height * (s.width * 3) := by rw [hlen]; ring
  have hloop : rawReadLoop (s.width * s.height * 3) chunks [] 0 = some chunks.flatten := by
    have h := rawReadLoop_complete (s.width * s.height * 3) chunks []
    simp only [List.length_nil, List.nil_append, Nat.zero_add] at h
    exact h hlen
  have hread : RawReader.read s chunks =
      RawReadResult.frame (reshapeFrame s.height s.width chunks.flatten) := by
    simp only [RawReader.read, hloop, reshape3]
    rw [if_pos (by rw [hlen]; ring)]
  have hrows : ∀ c ∈ splitInto s.height (s.width * 3) chunks.flatten, c.length = s.width * 3 :=
    splitInto_mem_length (s.width * 3) s.height chunks.flatten hlen2
  refine ⟨hread, ?_, ?_, ?_⟩
  · unfold reshapeFrame
    rw [flatten_map_flatten (splitInto s.width 3) _
      (fun c hc => splitInto_flatten 3 s.width c (by rw [hrows c hc]))]
    exact splitInto_flatten (s.width * 3) s.height chunks.flatten hlen2
  · unfold reshapeFrame
    rw [List.length_map, splitInto_length]
  · intro row hrow
    unfold reshapeFrame at hrow
    rw [List.mem_map] at hrow
    obtain ⟨c, hc, hceq⟩ := hrow
    subst hceq
    constructor
    · rw [splitInto_length]
    · intro px hpx
      exact splitInto_mem_length 3 s.width c (hrows c hc) px hpx

/-- Witness for C3: geometry 1x1, three bytes delivered as chunks of 2 and 1. -/
theorem rawRead_witness :
    RawReader.read ⟨1, 1, true⟩ [[10, 20], [30]] =
        RawReadResult.frame (reshapeFrame 1 1 ([[10, 20], [30]] : List (List Nat)).flatten) ∧
    (reshapeFrame 1 1 ([[10, 20], [30]] : List (List Nat)).flatten).flatten.flatten =
        ([[10, 20], [30]] : List (List Nat)).flatten ∧
    (reshapeFrame 1 1 ([[10, 20], [30]] : List (List Nat)).flatten).length = 1 ∧
    ∀ row ∈ reshapeFrame 1 1 ([[10, 20], [30]] : List (List Nat)).flatten,
      row.length = 1 ∧ ∀ px ∈ row, px.length = 3 :=
  rawRead_assembles ⟨1, 1, true⟩ (by decide) (by decide) [[10, 20], [30]] (by decide)


/-! ## Geometry validation, probe claims, classification claims -/

/-- Claim C4: for integer geometry, `RawReader` construction succeeds exactly
when both width and height are at least 1; otherwise it takes the fatal
`sys.exit(0)` path. -/
theorem raw_init_geometry (width height : Int) :
    (RawReader.init width height).isSome ↔ (1 ≤ width ∧ 1 ≤ height) := by
  unfold RawReader.init
  split
  · next h => simp only [Option.isSome_none, Bool.false_eq_true, false_iff]; omega
  · next h => simp only [Option.isSome_some, true_iff]; omega

/-- A probe behaviour whose reader stays open but never yields a frame. -/
def stubOpenReader : ProbeReader :=
  ⟨fun _ => Step.val true, fun _ => Step.val false, Step.val true⟩

/-- Claim C1 counterexample: a reader that stays open through the loop while
every one of the 30 reads returns a negative result makes `test_reader`
return failure, not success. -/
theorem probe_zero_frames_cex :
    test_reader stubOpenReader = false ∧ stubOpenReader.openEnd = Step.val true := by
  exact ⟨by decide, rfl⟩

/-- Claim C1 (amended): `test_reader` returns success iff the source is still
open after the 30-attempt loop, no call raised, and at least one of the 30
reads succeeded; with zero successful reads it returns failure even when the
source stayed open. -/
theorem test_reader_success_iff (r : ProbeReader) :
    test_reader r = true ↔
      (noRaiseUpTo r 0 30 ∧ r.openEnd = Step.val true ∧
        ∃ j, j < 30 ∧ r.readRes j = Step.val true) :=
  test_reader_true_iff r

/-- Claim C8: the probe returns failure whenever the source is not open at
the end of the loop (including when the `is_open` call raises), or whenever
any `is_ready`/`read` call of the loop raises; the exception is absorbed into
the boolean result. -/
theorem test_reader_failure (r : ProbeReader)
    (h : r.openEnd ≠ Step.val true ∨
      ∃ j, j < 30 ∧ (r.ready j = Step.raises ∨ r.readRes j = Step.raises)) :
    test_reader r = false := by
  cases htr : test_reader r
  · rfl
  · exfalso
    obtain ⟨hnr, hop, -⟩ := (test_reader_true_iff r).mp htr
    rcases h with h | ⟨j, hj, hraise⟩
    · exact h hop
    · rcases hraise with h1 | h2
      · exact (hnr j (by omega) hj).1 h1
      · exact (hnr j (by omega) hj).2 h2

/-- A probe behaviour whose reader reads fine but is closed at the end. -/
def stubClosedReader : ProbeReader :=
  ⟨fun _ => Step.val true, fun _ => Step.val true, Step.val false⟩

/-- Witness for C8: a reader that is closed after the loop fails the probe. -/
theorem test_reader_failure_witness : test_reader stubClosedReader = false :=
  test_reader_failure stubClosedReader (Or.inl (by decide))

/-- Claim C10: `EscapiReader.is_open` returns `True` in every state, the
`is_open()` observed by the probe on an escapi reader is therefore always
`True`, and consequently the probe result for an escapi reader is decided
solely by exceptions and read successes — the post-loop open check can never
cause the failure. -/
theorem escapi_open_unconditional :
    (∀ s : EscapiReaderState, EscapiReader.is_open s = true) ∧
    (∀ b : EscapiBehavior, (EscapiBehavior.toProbe b).openEnd = Step.val true) ∧
    (∀ b : EscapiBehavior,
      test_reader (EscapiBehavior.toProbe b) = true ↔
        (noRaiseUpTo (EscapiBehavior.toProbe b) 0 30 ∧
          ∃ j, j < 30 ∧ b.readRes j = Step.val true)) := by
  refine ⟨fun _ => rfl, fun _ => rfl, fun b => ?_⟩
  rw [test_reader_true_iff]
  constructor
  · rintro ⟨hnr, -, hex⟩; exact ⟨hnr, hex⟩
  · rintro ⟨hnr, hex⟩; exact ⟨hnr, rfl, hex⟩

/-- Claim C2 counterexample: the string `"07"` parses as the integer 7 but is
classified invalid (it is not the canonical rendering of 7), and the string
`"None"` does not parse as an integer but is classified as a device index
(`str(try_int("None")) == "None"`). -/
theorem classify_int_parse_cex :
    (try_int "07").isSome = true ∧
    classify (fun _ => false) 0 "07" = Classification.invalid ∧
    (try_int "None").isSome = false ∧
    classify (fun _ => false) 0 "None" = Classification.deviceIndex := by
  exact ⟨by decide, by decide, by decide, by decide⟩

/-- Claim C2 (amended): classification is total, deterministic and exclusive —
for any specifier exactly one of the four classes applies, raw mode winning
outright, then an existing path — but the device-index class holds exactly
when the specifier equals `str(try_int(specifier))`: the canonical decimal
rendering of an integer, or the literal string `"None"`.  Non-canonical
integer strings such as `"07"` are classified invalid. -/
theorem classify_characterization (pe : String → Bool) (rr : Int) (cap : String) :
    (classify pe rr cap = Classification.rawMode ↔ 0 < rr) ∧
    (classify pe rr cap = Classification.filePath ↔ rr ≤ 0 ∧ pe cap = true) ∧
    (classify pe rr cap = Classification.deviceIndex ↔
      rr ≤ 0 ∧ pe cap = false ∧ cap = pyStr (try_int cap)) ∧
    (classify pe rr cap = Classification.invalid ↔
      rr ≤ 0 ∧ pe cap = false ∧ cap ≠ pyStr (try_int cap)) := by
  unfold classify
  by_cases h1 : 0 < rr
  · have h1n : ¬ rr ≤ 0 := by omega
    simp [h1, h1n]
  · have h1y : rr ≤ 0 := by omega
    by_cases h2 : pe cap = true
    · simp [h1, h1y, h2]
    · have h2f : pe cap = false := by
        cases hpc : pe cap
        · rfl
        · exact absurd hpc h2
      by_cases h3 : cap = pyStr (try_int cap)
      · rw [if_neg h1, if_neg h2, if_pos h3]
        refine ⟨?_, ?_, ?_, ?_⟩
        · exact iff_of_false (by simp) (by omega)
        · exact iff_of_false (by simp) (by rintro ⟨-, hp⟩; exact h2 hp)
        · exact iff_of_true rfl ⟨h1y, h2f, h3⟩
        · exact iff_of_false (by simp) (by rintro ⟨-, -, hne⟩; exact hne h3)
      · rw [if_neg h1, if_neg h2, if_neg h3]
        refine ⟨?_, ?_, ?_, ?_⟩
        · exact iff_of_false (by simp) (by omega)
        · exact iff_of_false (by simp) (by rintro ⟨-, hp⟩; exact h2 hp)
        · exact iff_of_false (by simp) (by rintro ⟨-, -, he⟩; exact h3 he)
        · exact iff_of_true rfl ⟨h1y, h2f, h3⟩


/-! ## Selector lemmas -/

lemma findLastFrom_some (nm : String) :
    ∀ (names : List String) (i : Nat) (acc : Option Nat) (j : Nat),
      findLastFrom nm names i acc = some j → acc = some j ∨ nm ∈ names := by
  intro names
  induction names with
  | nil => intro i acc j h; exact Or.inl h
  | cons n rest ih =>
    intro i acc j h
    rcases ih (i + 1) (if n = nm then some i else acc) j h with hacc | hmem
    · by_cases hn : n = nm
      · exact Or.inr (by simp [hn])
      · rw [if_neg hn] at hacc
        exact Or.inl hacc
    · exact Or.inr (List.mem_cons_of_mem n hmem)

lemma findLast_some_mem (nm : String) (names : List String) (j : Nat)
    (h : findLast nm names = some j) : nm ∈ names := by
  rcases findLastFrom_some nm names 0 none j h with hacc | hmem
  · cases hacc
  · exact hmem

lemma findLastFrom_not_mem (nm : String) :
    ∀ (names : List String) (i : Nat) (acc : Option Nat),
      nm ∉ names → findLastFrom nm names i acc = acc := by
  intro names
  induction names with
  | nil => intro i acc _; rfl
  | cons n rest ih =>
    intro i acc h
    have hn : ¬ n = nm := fun he => h (by simp [he])
    have hrest : nm ∉ rest := fun hm => h (List.mem_cons_of_mem n hm)
    simp only [findLastFrom, if_neg hn]
    exact ih (i + 1) acc hrest

lemma findLast_eq_none (nm : String) (names : List String) (h : nm ∉ names) :
    findLast nm names = none :=
  findLastFrom_not_mem nm names 0 none h

lemma finalCheck_ok (o : Option RReader) (r : RReader)
    (h : finalCheck o = SelOutcome.ok r) : RReader.is_open r = true := by
  unfold finalCheck at h
  split at h
  · cases h
  · split at h
    · next hop =>
      injection h with h2
      subst h2
      exact hop
    · cases h

lemma finalCheck_ne_uncaught (o : Option RReader) : finalCheck o ≠ SelOutcome.uncaught := by
  unfold finalCheck
  split
  · simp
  · split <;> simp

lemma opencvFinish_ok (env : SelEnv) (prev : Option RReader) (evs : List Event)
    (intOk : Bool) (r : RReader)
    (h : (opencvFinish env prev evs intOk).1 = SelOutcome.ok r) :
    RReader.is_open r = true := by
  unfold opencvFinish at h
  by_cases hio : intOk = true
  · rw [if_pos hio] at h
    cases hcv : env.opencvCtor with
    | raises => rw [hcv] at h; exact finalCheck_ok prev r h
    | fatalExit => rw [hcv] at h; cases h
    | ok b => rw [hcv] at h; exact finalCheck_ok (some (RReader.opencv b)) r h
  · rw [if_neg hio] at h
    exact finalCheck_ok prev r h

lemma opencvFinish_ne_uncaught (env : SelEnv) (prev : Option RReader) (evs : List Event)
    (intOk : Bool) : (opencvFinish env prev evs intOk).1 ≠ SelOutcome.uncaught := by
  unfold opencvFinish
  by_cases hio : intOk = true
  · rw [if_pos hio]
    cases env.opencvCtor with
    | raises => exact finalCheck_ne_uncaught prev
    | fatalExit => simp
    | ok b => exact finalCheck_ne_uncaught (some (RReader.opencv b))
  · rw [if_neg hio]
    exact finalCheck_ne_uncaught prev

lemma afterDshow_ok (env : SelEnv) (nm : String) (prev : Option RReader)
    (evs : List Event) (intOk : Bool) (r : RReader)
    (h : (afterDshow env nm prev evs intOk).1 = SelOutcome.ok r) :
    RReader.is_open r = true := by
  unfold afterDshow at h
  split at h
  · exact opencvFinish_ok _ _ _ _ r h
  · split at h
    · exact opencvFinish_ok _ _ _ _ r h
    · split at h
      · exact opencvFinish_ok _ _ _ _ r h
      · split at h
        · injection h with h2
          subst h2
          rfl
        · exact opencvFinish_ok _ _ _ _ r h

lemma afterDshow_ne_uncaught (env : SelEnv) (nm : String) (prev : Option RReader)
    (evs : List Event) (intOk : Bool) :
    (afterDshow env nm prev evs intOk).1 ≠ SelOutcome.uncaught := by
  unfold afterDshow
  split
  · exact opencvFinish_ne_uncaught _ _ _ _
  · split
    · exact opencvFinish_ne_uncaught _ _ _ _
    · split
      · exact opencvFinish_ne_uncaught _ _ _ _
      · split
        · simp
        · exact opencvFinish_ne_uncaught _ _ _ _


lemma opencvFinish_events_true (env : SelEnv) (prev : Option RReader) (evs : List Event) :
    (opencvFinish env prev evs true).2 = evs ++ [Event.opencvInst] := by
  unfold opencvFinish
  rw [if_pos rfl]
  split <;> rfl

lemma opencvFinish_escapiInst (env : SelEnv) (prev : Option RReader) (evs : List Event)
    (intOk : Bool) (h : Event.escapiInst ∈ (opencvFinish env prev evs intOk).2) :
    Event.escapiInst ∈ evs := by
  by_cases hio : intOk = true
  · subst hio
    rw [opencvFinish_events_true] at h
    simp only [List.mem_append, List.mem_singleton] at h
    rcases h with h | h
    · exact h
    · cases h
  · unfold opencvFinish at h
    rw [if_neg hio] at h
    exact h

lemma afterDshow_enum_none (env : SelEnv) (nm : String) (prev : Option RReader)
    (evs : List Event) (intOk : Bool) (henum : env.escapiEnum = none) :
    afterDshow env nm prev evs intOk = opencvFinish env prev evs intOk := by
  simp only [afterDshow, henum]

lemma afterDshow_no_match (env : SelEnv) (nm : String) (prev : Option RReader)
    (evs : List Event) (intOk : Bool) (names : List String)
    (henum : env.escapiEnum = some names) (hfind : findLast nm names = none) :
    afterDshow env nm prev evs intOk = opencvFinish env prev evs intOk := by
  simp only [afterDshow, henum, hfind]

lemma afterDshow_ctor_none (env : SelEnv) (nm : String) (prev : Option RReader)
    (evs : List Event) (intOk : Bool) (names : List String) (i : Nat)
    (henum : env.escapiEnum = some names) (hfind : findLast nm names = some i)
    (hctor : env.escapiCtor = none) :
    afterDshow env nm prev evs intOk =
      opencvFinish env prev (evs ++ [Event.escapiInst]) intOk := by
  simp only [afterDshow, henum, hfind, hctor]

lemma afterDshow_escapiInst (env : SelEnv) (nm : String) (prev : Option RReader)
    (evs : List Event) (intOk : Bool) (names : List String)
    (henum : env.escapiEnum = some names)
    (hmem : Event.escapiInst ∈ (afterDshow env nm prev evs intOk).2) :
    Event.escapiInst ∈ evs ∨ nm ∈ names := by
  cases hfind : findLast nm names with
  | none =>
    rw [afterDshow_no_match env nm prev evs intOk names henum hfind] at hmem
    exact Or.inl (opencvFinish_escapiInst _ _ _ _ hmem)
  | some i => exact Or.inr (findLast_some_mem nm names i hfind)

lemma ntIndexPath_disabled (env : SelEnv) :
    ntIndexPath env false = afterDshow env "" none [] true := by
  simp only [ntIndexPath, Bool.false_eq_true, if_false]

lemma ntIndexPath_ctor_none (env : SelEnv) (h : env.dshowCtor = none) :
    ntIndexPath env true = afterDshow env "" none [Event.dshowInst] true := by
  simp only [ntIndexPath, h, if_true]

lemma ntIndexPath_probe_true (env : SelEnv) (d : DShowDev) (h : env.dshowCtor = some d)
    (hp : test_reader (DShowDev.probe d) = true) :
    ntIndexPath env true =
      (SelOutcome.ok (RReader.dshow d.name d.capturing), [Event.dshowInst]) := by
  simp only [ntIndexPath, h, hp, if_true]

lemma ntIndexPath_probe_false (env : SelEnv) (d : DShowDev) (h : env.dshowCtor = some d)
    (hp : test_reader (DShowDev.probe d) = false) :
    ntIndexPath env true =
      afterDshow env d.name (some (RReader.dshow d.name d.capturing))
        [Event.dshowInst] true := by
  simp only [ntIndexPath, h, hp, Bool.false_eq_true, if_true, if_false]

lemma ntIndexPath_failed (env : SelEnv) (ud : Bool) (hf : dshowFailed env ud) :
    ntIndexPath env ud =
      afterDshow env (resolvedName env ud) (dshowPrev env ud) (dshowEvs ud) true := by
  cases ud with
  | false => simp only [ntIndexPath_disabled, resolvedName, dshowPrev, dshowEvs,
      Bool.false_eq_true, if_false]
  | true =>
    cases hctor : env.dshowCtor with
    | none =>
      rw [ntIndexPath_ctor_none env hctor]
      simp only [resolvedName, dshowPrev, dshowEvs, hctor, if_true]
    | some d =>
      have hp : test_reader (DShowDev.probe d) = false := by
        rcases hf with h | h | ⟨d2, hd2, hp2⟩
        · cases h
        · rw [hctor] at h; cases h
        · rw [hctor] at hd2
          injection hd2 with he
          subst he
          exact hp2
      rw [ntIndexPath_probe_false env d hctor hp]
      simp only [resolvedName, dshowPrev, dshowEvs, hctor, if_true]

lemma ntIndexPath_ne_uncaught (env : SelEnv) (ud : Bool) :
    (ntIndexPath env ud).1 ≠ SelOutcome.uncaught := by
  unfold ntIndexPath
  split
  · split
    · split
      · simp
      · exact afterDshow_ne_uncaught _ _ _ _ _
    · exact afterDshow_ne_uncaught _ _ _ _ _
  · exact afterDshow_ne_uncaught _ _ _ _ _

lemma ntIndexPath_ok (env : SelEnv) (ud : Bool) (r : RReader)
    (hr : (ntIndexPath env ud).1 = SelOutcome.ok r) : RReader.is_open r = true := by
  cases ud with
  | false =>
    rw [ntIndexPath_disabled env] at hr
    exact afterDshow_ok _ _ _ _ _ r hr
  | true =>
    cases hctor : env.dshowCtor with
    | none =>
      rw [ntIndexPath_ctor_none env hctor] at hr
      exact afterDshow_ok _ _ _ _ _ r hr
    | some d =>
      cases hp : test_reader (DShowDev.probe d) with
      | true =>
        rw [ntIndexPath_probe_true env d hctor hp] at hr
        have hr2 : SelOutcome.ok (RReader.dshow d.name d.capturing) = SelOutcome.ok r := hr
        injection hr2 with h2
        subst h2
        have hop : (DShowDev.probe d).openEnd = Step.val true :=
          ((test_reader_true_iff (DShowDev.probe d)).mp hp).2.1
        have h3 : Step.val d.capturing = Step.val true := hop
        show d.capturing = true
        exact Step.val.inj h3
      | false =>
        rw [ntIndexPath_probe_false env d hctor hp] at hr
        exact afterDshow_ok _ _ _ _ _ r hr

lemma init_ne_uncaught (env : SelEnv) (cap : String) (rr w h : Int) (ud : Bool) :
    (InputReader.init env cap rr w h ud).1 ≠ SelOutcome.uncaught := by
  unfold InputReader.init
  split
  · split
    · simp
    · next s2 heq => exact finalCheck_ne_uncaught (some (RReader.raw s2))
  · split
    · simp
    · simp
    · next b2 heq => exact finalCheck_ne_uncaught (some (RReader.video b2))
  · split
    · split
      · exact ntIndexPath_ne_uncaught env ud
      · split
        · simp
        · simp
        · next b2 heq => exact finalCheck_ne_uncaught (some (RReader.opencv b2))
    · split
      · exact afterDshow_ne_uncaught _ _ _ _ _
      · simp
  · simp

lemma init_ok_open (env : SelEnv) (cap : String) (rr w h : Int) (ud : Bool) (r : RReader)
    (hr : (InputReader.init env cap rr w h ud).1 = SelOutcome.ok r) :
    RReader.is_open r = true := by
  unfold InputReader.init at hr
  split at hr
  · split at hr
    · simp at hr
    · next s2 heq => exact finalCheck_ok (some (RReader.raw s2)) r hr
  · split at hr
    · simp at hr
    · simp at hr
    · next b2 heq => exact finalCheck_ok (some (RReader.video b2)) r hr
  · split at hr
    · split at hr
      · exact ntIndexPath_ok env ud r hr
      · split at hr
        · simp at hr
        · simp at hr
        · next b2 heq => exact finalCheck_ok (some (RReader.opencv b2)) r hr
    · split at hr
      · exact afterDshow_ok _ _ _ _ _ r hr
      · simp at hr
  · simp at hr

lemma classify_dev (pe : String → Bool) (rr : Int) (cap : String)
    (hrr : rr ≤ 0) (hpe : pe cap = false) (hcanon : cap = pyStr (try_int cap)) :
    classify pe rr cap = Classification.deviceIndex := by
  unfold classify
  rw [if_neg (by omega : ¬ 0 < rr), if_neg (by simp [hpe]), if_pos hcanon]

lemma init_index_nt (env : SelEnv) (cap : String) (rr w h : Int) (ud : Bool) (idx : Int)
    (hnt : env.osIsNt = true) (hrr : rr ≤ 0) (hpe : env.pathExists cap = false)
    (hint : try_int cap = some idx) (hcanon : cap = pyStr (try_int cap)) :
    InputReader.init env cap rr w h ud = ntIndexPath env ud := by
  unfold InputReader.init
  rw [classify_dev env.pathExists rr cap hrr hpe hcanon]
  simp only [hint, hnt, if_true]


/-! ## Selector claims -/

/-- Claim C9: whenever `InputReader.__init__` returns normally (the process
did not exit), the selected reader exists and its `is_open()` is true at that
moment — including the early-return paths after a successful DShowCapture or
escapi probe, which bypass the final explicit open check. -/
theorem init_returns_open (env : SelEnv) (cap : String) (rr w h : Int) (ud : Bool)
    (r : RReader) (evs : List Event)
    (hret : InputReader.init env cap rr w h ud = (SelOutcome.ok r, evs)) :
    RReader.is_open r = true := by
  have h1 : (InputReader.init env cap rr w h ud).1 = SelOutcome.ok r := by rw [hret]
  exact init_ok_open env cap rr w h ud r h1

/-- Environment for the C9 witness: a non-Windows host whose OpenCV reader
opens. -/
def envOpenW : SelEnv :=
  { osIsNt := false
    pathExists := fun _ => false
    videoCtor := CtorOutcome.ok true
    dshowCtor := none
    escapiEnum := none
    escapiCtor := none
    opencvCtor := CtorOutcome.ok true }

/-- Witness for C9: the selected OpenCV reader of a concrete successful run is
open. -/
theorem init_returns_open_witness : RReader.is_open (RReader.opencv true) = true :=
  init_returns_open envOpenW "0" 0 640 480 false (RReader.opencv true)
    [Event.opencvInst] (by decide)

/-- Claim C5: on Windows with DShowCapture enabled, a successful probe commits
to the DShowCapture reader immediately: the selector returns it with only the
DShowCapture instantiation recorded, and neither the escapi reader nor the
OpenCV reader is ever instantiated. -/
theorem dshow_commit (env : SelEnv) (cap : String) (idx rr w h : Int) (d : DShowDev)
    (hnt : env.osIsNt = true) (hrr : rr ≤ 0) (hpe : env.pathExists cap = false)
    (hint : try_int cap = some idx) (hcanon : cap = pyStr (try_int cap))
    (hctor : env.dshowCtor = some d)
    (hprobe : test_reader (DShowDev.probe d) = true) :
    InputReader.init env cap rr w h true =
      (SelOutcome.ok (RReader.dshow d.name d.capturing), [Event.dshowInst]) ∧
    Event.escapiInst ∉ (InputReader.init env cap rr w h true).2 ∧
    Event.opencvInst ∉ (InputReader.init env cap rr w h true).2 := by
  have heq : InputReader.init env cap rr w h true = ntIndexPath env true :=
    init_index_nt env cap rr w h true idx hnt hrr hpe hint hcanon
  rw [heq, ntIndexPath_probe_true env d hctor hprobe]
  refine ⟨rfl, ?_, ?_⟩ <;> simp

/-- Environment for the C5 witness: DShowCapture constructs, reads frames and
stays capturing. -/
def envDshowW : SelEnv :=
  { osIsNt := true
    pathExists := fun _ => false
    videoCtor := CtorOutcome.ok true
    dshowCtor := some { name := "Cam", readRes := fun _ => Step.val true, capturing := true }
    escapiEnum := none
    escapiCtor := none
    opencvCtor := CtorOutcome.ok true }

/-- Witness for C5: a concrete run that commits to DShowCapture. -/
theorem dshow_commit_witness :
    InputReader.init envDshowW "0" 0 640 480 true =
      (SelOutcome.ok (RReader.dshow "Cam" true), [Event.dshowInst]) :=
  (dshow_commit envDshowW "0" 0 0 640 480
      { name := "Cam", readRes := fun _ => Step.val true, capturing := true }
      rfl (by decide) rfl (by decide) (by decide) rfl (by decide)).1

/-- Claim C6: when the DShowCapture attempt is disabled or failed, the escapi
reader is instantiated only if the escapi enumeration contains a device whose
name equals the name resolved by DShowCapture; with no match the selector
proceeds directly to OpenCV without instantiating escapi. -/
theorem escapi_requires_name_match (env : SelEnv) (cap : String) (idx rr w h : Int)
    (ud : Bool) (names : List String)
    (hnt : env.osIsNt = true) (hrr : rr ≤ 0) (hpe : env.pathExists cap = false)
    (hint : try_int cap = some idx) (hcanon : cap = pyStr (try_int cap))
    (henum : env.escapiEnum = some names) :
    (Event.escapiInst ∈ (InputReader.init env cap rr w h ud).2 →
      resolvedName env ud ∈ names) ∧
    (dshowFailed env ud → resolvedName env ud ∉ names →
      Event.escapiInst ∉ (InputReader.init env cap rr w h ud).2 ∧
      Event.opencvInst ∈ (InputReader.init env cap rr w h ud).2) := by
  have heq : InputReader.init env cap rr w h ud = ntIndexPath env ud :=
    init_index_nt env cap rr w h ud idx hnt hrr hpe hint hcanon
  rw [heq]
  constructor
  · intro hmem
    by_cases hcommit : ∃ d, ud = true ∧ env.dshowCtor = some d ∧
        test_reader (DShowDev.probe d) = true
    · obtain ⟨d, hud, hctor, hp⟩ := hcommit
      subst hud
      rw [ntIndexPath_probe_true env d hctor hp] at hmem
      simp at hmem
    · have hf : dshowFailed env ud := by
        cases ud with
        | false => exact Or.inl rfl
        | true =>
          cases hctor : env.dshowCtor with
          | none => exact Or.inr (Or.inl hctor)
          | some d =>
            cases hp : test_reader (DShowDev.probe d) with
            | false => exact Or.inr (Or.inr ⟨d, hctor, hp⟩)
            | true => exact absurd ⟨d, rfl, hctor, hp⟩ hcommit
      rw [ntIndexPath_failed env ud hf] at hmem
      rcases afterDshow_escapiInst env _ _ _ _ names henum hmem with hin | hnm
      · cases ud <;> simp [dshowEvs] at hin
      · exact hnm
  · intro hf hnm
    rw [ntIndexPath_failed env ud hf,
      afterDshow_no_match env _ _ _ _ names henum
        (findLast_eq_none (resolvedName env ud) names hnm)]
    constructor
    · rw [opencvFinish_events_true]
      cases ud <;> simp [dshowEvs]
    · rw [opencvFinish_events_true]
      simp

/-- Environment for the C6 witness: DShowCapture disabled, escapi enumeration
holds one device not named `""`. -/
def envEscapiW : SelEnv :=
  { osIsNt := true
    pathExists := fun _ => false
    videoCtor := CtorOutcome.ok true
    dshowCtor := none
    escapiEnum := some ["Cam"]
    escapiCtor := none
    opencvCtor := CtorOutcome.ok true }

/-- Witness for C6: with no name match, escapi is never instantiated and
OpenCV is. -/
theorem escapi_requires_name_match_witness :
    Event.escapiInst ∉ (InputReader.init envEscapiW "0" 0 640 480 false).2 ∧
    Event.opencvInst ∈ (InputReader.init envEscapiW "0" 0 640 480 false).2 :=
  (escapi_requires_name_match envEscapiW "0" 0 0 640 480 false ["Cam"]
      rfl (by decide) rfl (by decide) (by decide) rfl).2
    (Or.inl rfl) (by decide)

/-- Claim C7: an exception while constructing DShowCapture, while enumerating
escapi devices, or while constructing the escapi reader is caught inside the
selector and turns into trying the next backend in the chain, and no selector
outcome is an escaped exception. -/
theorem backend_exceptions_contained (env : SelEnv) (cap : String) (idx rr w h : Int)
    (ud : Bool)
    (hnt : env.osIsNt = true) (hrr : rr ≤ 0) (hpe : env.pathExists cap = false)
    (hint : try_int cap = some idx) (hcanon : cap = pyStr (try_int cap)) :
    (InputReader.init env cap rr w h ud).1 ≠ SelOutcome.uncaught ∧
    (ud = true → env.dshowCtor = none →
      InputReader.init env cap rr w h ud =
        afterDshow env "" none [Event.dshowInst] true) ∧
    (dshowFailed env ud → env.escapiEnum = none →
      InputReader.init env cap rr w h ud =
        opencvFinish env (dshowPrev env ud) (dshowEvs ud) true) ∧
    (dshowFailed env ud → ∀ names i, env.escapiEnum = some names →
      findLast (resolvedName env ud) names = some i → env.escapiCtor = none →
      InputReader.init env cap rr w h ud =
        opencvFinish env (dshowPrev env ud) (dshowEvs ud ++ [Event.escapiInst]) true) := by
  have heq : InputReader.init env cap rr w h ud = ntIndexPath env ud :=
    init_index_nt env cap rr w h ud idx hnt hrr hpe hint hcanon
  refine ⟨init_ne_uncaught env cap rr w h ud, ?_, ?_, ?_⟩
  · intro hud hctor
    subst hud
    rw [heq, ntIndexPath_ctor_none env hctor]
  · intro hf henum
    rw [heq, ntIndexPath_failed env ud hf, afterDshow_enum_none _ _ _ _ _ henum]
  · intro hf names i henum hfind hctor
    rw [heq, ntIndexPath_failed env ud hf,
      afterDshow_ctor_none _ _ _ _ _ names i henum hfind hctor]

/-- Environment for the C7 witness: the DShowCapture constructor raises. -/
def envRaiseW : SelEnv :=
  { osIsNt := true
    pathExists := fun _ => false
    videoCtor := CtorOutcome.ok true
    dshowCtor := none
    escapiEnum := some []
    escapiCtor := none
    opencvCtor := CtorOutcome.ok true }

/-- Witness for C7: with a raising DShowCapture constructor the selector
continues with the escapi attempt. -/
theorem backend_exceptions_contained_witness :
    InputReader.init envRaiseW "0" 0 640 480 true =
      afterDshow envRaiseW "" none [Event.dshowInst] true :=
  ((backend_exceptions_contained envRaiseW "0" 0 0 640 480 true
      rfl (by decide) rfl (by decide) (by decide)).2.1) rfl rfl

end OSF
